import Mathlib

/-!
Shallow embedding of `src/api/python/evecommon/devmodelcommon_pb2.py`,
the protobuf-generated Python bindings for the `evecommon/devmodelcommon.proto`
schema of the eve repository.  The module declares a file descriptor, two
enum descriptors (`_PHYIOTYPE`, `_PHYIOMEMBERUSAGE`) with their value lists,
and module-level integer constants for every enum member.
-/

/-- Embeds `google.protobuf.descriptor.EnumValueDescriptor` as used in the
source: each value carries a symbolic name, its positional index in the
declaration list, and its wire number. -/
structure EnumValueDescriptor where
  name : String
  index : Nat
  number : Nat
deriving DecidableEq, Repr

/-- Embeds `google.protobuf.descriptor.EnumDescriptor`: a named enumeration
with a full (package-qualified) name and an ordered list of values. -/
structure EnumDescriptor where
  name : String
  full_name : String
  values : List EnumValueDescriptor
deriving DecidableEq, Repr

/-- Embeds `google.protobuf.descriptor.FileDescriptor` (the fields the
source sets that matter to the schema contract). -/
structure FileDescriptor where
  name : String
  package : String
deriving DecidableEq, Repr

/-- The `DESCRIPTOR = _descriptor.FileDescriptor(...)` declaration of the
source module. -/
def DESCRIPTOR : FileDescriptor :=
  { name := "evecommon/devmodelcommon.proto"
    package := "org.lfedge.eve.common" }

/-- The `_PHYIOTYPE = _descriptor.EnumDescriptor(...)` declaration of the
source module, with its nine `EnumValueDescriptor` entries transcribed
verbatim (name, index, number). -/
def _PHYIOTYPE : EnumDescriptor :=
  { name := "PhyIoType"
    full_name := "org.lfedge.eve.common.PhyIoType"
    values :=
      [ ⟨"PhyIoNoop", 0, 0⟩
      , ⟨"PhyIoNetEth", 1, 1⟩
      , ⟨"PhyIoUSB", 2, 2⟩
      , ⟨"PhyIoCOM", 3, 3⟩
      , ⟨"PhyIoAudio", 4, 4⟩
      , ⟨"PhyIoNetWLAN", 5, 5⟩
      , ⟨"PhyIoNetWWAN", 6, 6⟩
      , ⟨"PhyIoHDMI", 7, 7⟩
      , ⟨"PhyIoOther", 8, 255⟩ ] }

/-- The `_PHYIOMEMBERUSAGE = _descriptor.EnumDescriptor(...)` declaration of
the source module, with its six `EnumValueDescriptor` entries transcribed
verbatim (name, index, number). -/
def _PHYIOMEMBERUSAGE : EnumDescriptor :=
  { name := "PhyIoMemberUsage"
    full_name := "org.lfedge.eve.common.PhyIoMemberUsage"
    values :=
      [ ⟨"PhyIoUsageNone", 0, 0⟩
      , ⟨"PhyIoUsageMgmtAndApps", 1, 1⟩
      , ⟨"PhyIoUsageShared", 2, 2⟩
      , ⟨"PhyIoUsageDedicated", 3, 3⟩
      , ⟨"PhyIoUsageDisabled", 4, 4⟩
      , ⟨"PhyIoUsageMgmtOnly", 5, 5⟩ ] }

/-- Name-to-number lookup over an enum descriptor's declared values, as the
protobuf `EnumTypeWrapper.Value(name)` lookup performs it over the
descriptor's value list (`None` when the name is not declared). -/
def lookupNumber (e : EnumDescriptor) (n : String) : Option Nat :=
  (e.values.find? (fun v => v.name = n)).map (fun v => v.number)

/-- Number-to-name lookup over an enum descriptor's declared values, as the
protobuf `EnumTypeWrapper.Name(number)` lookup performs it over the
descriptor's value list (`None` when the number is not declared). -/
def lookupName (e : EnumDescriptor) (n : Nat) : Option String :=
  (e.values.find? (fun v => v.number = n)).map (fun v => v.name)

/- Module-level integer constants exported by the source module, one per
enum member (lines 116-130 of the source). -/

/-- `PhyIoNoop = 0` in the source module. -/
def PhyIoNoop : Nat := 0
/-- `PhyIoNetEth = 1` in the source module. -/
def PhyIoNetEth : Nat := 1
/-- `PhyIoUSB = 2` in the source module. -/
def PhyIoUSB : Nat := 2
/-- `PhyIoCOM = 3` in the source module. -/
def PhyIoCOM : Nat := 3
/-- `PhyIoAudio = 4` in the source module. -/
def PhyIoAudio : Nat := 4
/-- `PhyIoNetWLAN = 5` in the source module. -/
def PhyIoNetWLAN : Nat := 5
/-- `PhyIoNetWWAN = 6` in the source module. -/
def PhyIoNetWWAN : Nat := 6
/-- `PhyIoHDMI = 7` in the source module. -/
def PhyIoHDMI : Nat := 7
/-- `PhyIoOther = 255` in the source module. -/
def PhyIoOther : Nat := 255
/-- `PhyIoUsageNone = 0` in the source module. -/
def PhyIoUsageNone : Nat := 0
/-- `PhyIoUsageMgmtAndApps = 1` in the source module. -/
def PhyIoUsageMgmtAndApps : Nat := 1
/-- `PhyIoUsageShared = 2` in the source module. -/
def PhyIoUsageShared : Nat := 2
/-- `PhyIoUsageDedicated = 3` in the source module. -/
def PhyIoUsageDedicated : Nat := 3
/-- `PhyIoUsageDisabled = 4` in the source module. -/
def PhyIoUsageDisabled : Nat := 4
/-- `PhyIoUsageMgmtOnly = 5` in the source module. -/
def PhyIoUsageMgmtOnly : Nat := 5

/-- Result of decoding one enum-typed field value: either a declared member
(carrying its symbolic name) or an unrecognized number kept as-is. -/
inductive DecodedEnum where
  | known (name : String) (number : Nat)
  | unknown (number : Nat)
deriving DecidableEq, Repr

/-- Modelled from the spec: the proto3 open-enum decode step of the protobuf
runtime, which is not part of this repository (the source file only declares
the descriptors and delegates decoding to `google.protobuf`).  Per the spec's
section 7, decoding "must not fail decoding solely due to an unrecognized
enum number" and "must preserve unknown numeric values on round-trip": a
declared number decodes to its named member, any other number is accepted
and kept unchanged as an unknown value. -/
def decodeEnum (e : EnumDescriptor) (n : Nat) : DecodedEnum :=
  match lookupName e n with
  | some s => .known s n
  | none => .unknown n

/-- Modelled from the spec: re-encoding a decoded enum value emits the
numeric value it carries, whether or not the number is a declared member. -/
def encodeEnum : DecodedEnum → Nat
  | .known _ n => n
  | .unknown n => n

/-- Modelled from the spec: per proto3 semantics an enum-typed field absent
from serialized input decodes as the default numeric value 0 (the spec's
section 3: value 0 is the default/"unset" member). -/
def decodeAbsent (e : EnumDescriptor) : DecodedEnum :=
  decodeEnum e 0

/-- C1: `_PHYIOTYPE` declares exactly the nine name/number pairs of the
spec's section 3 table, in order: PhyIoNoop=0, PhyIoNetEth=1, PhyIoUSB=2,
PhyIoCOM=3, PhyIoAudio=4, PhyIoNetWLAN=5, PhyIoNetWWAN=6, PhyIoHDMI=7,
PhyIoOther=255 — no more, no fewer. -/
theorem phyIoType_pairs :
    _PHYIOTYPE.values.map (fun v => (v.name, v.number)) =
      [ ("PhyIoNoop", 0), ("PhyIoNetEth", 1), ("PhyIoUSB", 2)
      , ("PhyIoCOM", 3), ("PhyIoAudio", 4), ("PhyIoNetWLAN", 5)
      , ("PhyIoNetWWAN", 6), ("PhyIoHDMI", 7), ("PhyIoOther", 255) ] := by
  decide

/-- C2: `_PHYIOMEMBERUSAGE` declares exactly the six name/number pairs of
the spec's section 3 table, in order: PhyIoUsageNone=0,
PhyIoUsageMgmtAndApps=1, PhyIoUsageShared=2, PhyIoUsageDedicated=3,
PhyIoUsageDisabled=4, PhyIoUsageMgmtOnly=5 — no more, no fewer. -/
theorem phyIoMemberUsage_pairs :
    _PHYIOMEMBERUSAGE.values.map (fun v => (v.name, v.number)) =
      [ ("PhyIoUsageNone", 0), ("PhyIoUsageMgmtAndApps", 1)
      , ("PhyIoUsageShared", 2), ("PhyIoUsageDedicated", 3)
      , ("PhyIoUsageDisabled", 4), ("PhyIoUsageMgmtOnly", 5) ] := by
  decide

/-- C3: for every declared name/number pair of either enumeration, the
name-to-number and number-to-name lookups are mutually inverse: the number
looked up for the name is the declared number, and the name looked up for
that number is the original name, and symmetrically. -/
theorem lookups_mutually_inverse :
    (∀ v ∈ _PHYIOTYPE.values,
      lookupNumber _PHYIOTYPE v.name = some v.number ∧
      lookupName _PHYIOTYPE v.number = some v.name) ∧
    (∀ v ∈ _PHYIOMEMBERUSAGE.values,
      lookupNumber _PHYIOMEMBERUSAGE v.name = some v.number ∧
      lookupName _PHYIOMEMBERUSAGE v.number = some v.name) := by
  decide

/-- Witness for C3: instantiated at the concrete member PhyIoOther
(name "PhyIoOther", index 8, number 255) of `_PHYIOTYPE`. -/
theorem lookups_mutually_inverse_witness :
    lookupNumber _PHYIOTYPE "PhyIoOther" = some 255 ∧
    lookupName _PHYIOTYPE 255 = some "PhyIoOther" :=
  lookups_mutually_inverse.1 ⟨"PhyIoOther", 8, 255⟩ (by decide)

/-- C4: within each enumeration the declared numbers are pairwise distinct
and the declared names are pairwise distinct. -/
theorem names_and_numbers_nodup :
    (_PHYIOTYPE.values.map (fun v => v.number)).Nodup ∧
    (_PHYIOTYPE.values.map (fun v => v.name)).Nodup ∧
    (_PHYIOMEMBERUSAGE.values.map (fun v => v.number)).Nodup ∧
    (_PHYIOMEMBERUSAGE.values.map (fun v => v.name)).Nodup := by
  decide

/-- C5: each enumeration declares a member with number 0 — PhyIoNoop in
`_PHYIOTYPE`, PhyIoUsageNone in `_PHYIOMEMBERUSAGE` — and an enum-typed
field absent from serialized input decodes as that member. -/
theorem default_zero_members :
    lookupName _PHYIOTYPE 0 = some "PhyIoNoop" ∧
    lookupName _PHYIOMEMBERUSAGE 0 = some "PhyIoUsageNone" ∧
    decodeAbsent _PHYIOTYPE = .known "PhyIoNoop" 0 ∧
    decodeAbsent _PHYIOMEMBERUSAGE = .known "PhyIoUsageNone" 0 := by
  decide

/-- C6: decoding any numeric value never fails — `decodeEnum` is total over
the numbers — and a decode-then-encode round-trip preserves the number
unchanged; in particular 9999, which names no member of either enumeration,
decodes as an unknown value and round-trips to 9999. -/
theorem unknown_values_preserved :
    (∀ n : Nat, encodeEnum (decodeEnum _PHYIOTYPE n) = n) ∧
    (∀ n : Nat, encodeEnum (decodeEnum _PHYIOMEMBERUSAGE n) = n) ∧
    decodeEnum _PHYIOTYPE 9999 = .unknown 9999 ∧
    decodeEnum _PHYIOMEMBERUSAGE 9999 = .unknown 9999 := by
  refine ⟨fun n => ?_, fun n => ?_, by decide, by decide⟩ <;>
    · unfold encodeEnum decodeEnum
      cases lookupName _ n <;> simp

/-- C7: the file descriptor's package and both enumerations' full names
carry exactly the package identifier "org.lfedge.eve.common". -/
theorem package_and_full_names :
    DESCRIPTOR.package = "org.lfedge.eve.common" ∧
    _PHYIOTYPE.full_name = "org.lfedge.eve.common.PhyIoType" ∧
    _PHYIOMEMBERUSAGE.full_name = "org.lfedge.eve.common.PhyIoMemberUsage" := by
  decide

/-- C8: for every one of the fifteen member names, the module-level integer
constant exported under that name equals the number declared for the same
name in the corresponding enum descriptor. -/
theorem module_constants_agree :
    lookupNumber _PHYIOTYPE "PhyIoNoop" = some PhyIoNoop ∧
    lookupNumber _PHYIOTYPE "PhyIoNetEth" = some PhyIoNetEth ∧
    lookupNumber _PHYIOTYPE "PhyIoUSB" = some PhyIoUSB ∧
    lookupNumber _PHYIOTYPE "PhyIoCOM" = some PhyIoCOM ∧
    lookupNumber _PHYIOTYPE "PhyIoAudio" = some PhyIoAudio ∧
    lookupNumber _PHYIOTYPE "PhyIoNetWLAN" = some PhyIoNetWLAN ∧
    lookupNumber _PHYIOTYPE "PhyIoNetWWAN" = some PhyIoNetWWAN ∧
    lookupNumber _PHYIOTYPE "PhyIoHDMI" = some PhyIoHDMI ∧
    lookupNumber _PHYIOTYPE "PhyIoOther" = some PhyIoOther ∧
    lookupNumber _PHYIOMEMBERUSAGE "PhyIoUsageNone" = some PhyIoUsageNone ∧
    lookupNumber _PHYIOMEMBERUSAGE "PhyIoUsageMgmtAndApps" =
      some PhyIoUsageMgmtAndApps ∧
    lookupNumber _PHYIOMEMBERUSAGE "PhyIoUsageShared" = some PhyIoUsageShared ∧
    lookupNumber _PHYIOMEMBERUSAGE "PhyIoUsageDedicated" =
      some PhyIoUsageDedicated ∧
    lookupNumber _PHYIOMEMBERUSAGE "PhyIoUsageDisabled" =
      some PhyIoUsageDisabled ∧
    lookupNumber _PHYIOMEMBERUSAGE "PhyIoUsageMgmtOnly" =
      some PhyIoUsageMgmtOnly := by
  decide

/-- C9: in both descriptors every value's index equals its position in the
declaration list (indices are contiguous 0..n-1), yet index is not in
general the numeric value: the value at index 8 of `_PHYIOTYPE` is
PhyIoOther with number 255 ≠ 8, so list position must not be used as the
wire value. -/
theorem indices_contiguous_not_numbers :
    _PHYIOTYPE.values.map (fun v => v.index) = List.range 9 ∧
    _PHYIOMEMBERUSAGE.values.map (fun v => v.index) = List.range 6 ∧
    ⟨"PhyIoOther", 8, 255⟩ ∈ _PHYIOTYPE.values ∧
    (255 : Nat) ≠ 8 := by
  decide

/-- C10: no symbolic name is declared in both enumerations, so exporting
all fifteen member names as module-level constants in one flat namespace
assigns each name exactly one value, with no constant shadowing another. -/
theorem enum_name_sets_disjoint :
    ∀ n ∈ _PHYIOTYPE.values.map (fun v => v.name),
      n ∉ _PHYIOMEMBERUSAGE.values.map (fun v => v.name) := by
  decide

/-- Witness for C10: instantiated at the concrete name "PhyIoNoop", a member
of `_PHYIOTYPE` that is not a member name of `_PHYIOMEMBERUSAGE`. -/
theorem enum_name_sets_disjoint_witness :
    "PhyIoNoop" ∉ _PHYIOMEMBERUSAGE.values.map (fun v => v.name) :=
  enum_name_sets_disjoint "PhyIoNoop" (by decide)
